import Mathlib

/-!
Shallow embedding of `src/producer/core/data_access.py` from the
energywebfoundation/artik710-logger repository: the hash-linked disk
storage (`DiskStorage`) and the ingestion functions
(`read_production_data`, `read_consumption_data`), together with the
hash-address computation used by `get_last_hash`.

Python numbers (meter readings) are modelled as rationals, bytes as
natural numbers below 256, and the effects of the Python methods
(file writes, pickle persistence, exceptions) as explicit state
passing over a `DiskStorage` state together with `Except` results.
-/

namespace Artik

/-- Python errors that the embedded code can raise. -/
inductive PyError where
  | eofError
  | unpicklingError
  | ioError
  | attributeError
deriving DecidableEq, Repr

/-! ## Data model (`core.abstract.bond`, as used by `data_access.py`) -/

/-- Timestamp with the fields used by the `%Y-%m-%d-%H:%M:%S` format mask. -/
structure Timestamp where
  year : Nat
  month : Nat
  day : Nat
  hour : Nat
  minute : Nat
  second : Nat
deriving DecidableEq, Repr

/-- `ChainFile(data_file_name, datetime.datetime.now())`: a pointer to a
payload file on disk plus its creation time.  The code reads the first
field as `.file`. -/
structure ChainFile where
  file : String
  date : Timestamp
deriving DecidableEq, Repr

/-- `ChainLink(data=..., last_link=...)`: singly linked, newest-first
chain node.  `last_link` is the previous head (`None` for the first
link), which the spec calls `previous`. -/
inductive ChainLink where
  | mk (data : ChainFile) (last_link : Option ChainLink)
deriving Repr

/-- Field accessor for `ChainLink.data`. -/
def ChainLink.data : ChainLink → ChainFile
  | .mk d _ => d

/-- Field accessor for `ChainLink.last_link` (the spec's `previous`). -/
def ChainLink.last_link : ChainLink → Option ChainLink
  | .mk _ p => p

/-- The device description carried by an energy reading; the code only
consults `device.is_accumulated`. -/
structure Device where
  is_accumulated : Bool
deriving DecidableEq, Repr

/-- An energy reading (`ExternalData` subclass) as consumed by the
ingestion code: `raw_energy.energy` and `raw_energy.device`. -/
structure EnergyData where
  energy : ℚ
  device : Device
deriving DecidableEq, Repr

/-- A carbon-emission reading (`ExternalData` subclass) as consumed by
the ingestion code: `raw_carbon_emitted.accumulated_co2`. -/
structure CarbonEmissionData where
  accumulated_co2 : ℚ
deriving DecidableEq, Repr

/-- Derived production sub-record (`ProducedChainData(**produced)`). -/
structure ProducedChainData where
  energy : ℚ
  is_meter_down : Bool
  previous_hash : String
  co2_saved : ℤ
  is_co2_down : Bool
deriving DecidableEq, Repr

/-- Derived consumption sub-record (`ConsumedChainData`). -/
structure ConsumedChainData where
  energy : ℚ
  previous_hash : String
  is_meter_down : Bool
deriving DecidableEq, Repr

/-- `ProductionFileData`: the raw readings (absent on sensor failure)
plus the derived sub-record. -/
structure ProductionFileData where
  raw_energy : Option EnergyData
  raw_carbon_emitted : Option CarbonEmissionData
  produced : Option ProducedChainData
deriving DecidableEq, Repr

/-- `ConsumptionFileData`: the raw reading plus the derived sub-record. -/
structure ConsumptionFileData where
  raw_energy : Option EnergyData
  consumed : Option ConsumedChainData
deriving DecidableEq, Repr

/-- `LocalFileData`: the payload handed to `DiskStorage.add_to_chain`;
`isinstance(data, ProductionFileData)` selects the `production/`
subdirectory, anything else goes to `consumption/`. -/
inductive LocalFileData where
  | production (d : ProductionFileData)
  | consumption (d : ConsumptionFileData)
deriving DecidableEq, Repr

/-! ## Ingestion (`__fetch_input_data`, `read_production_data`,
`read_consumption_data`) -/

/-- Outcome of `external_data_source.read_state()`: it returns an
`ExternalData` instance, or returns a value of the wrong type, or
raises an exception. -/
inductive ReadOutcome (α : Type) where
  | ok (data : α)
  | wrongType
  | raised
deriving DecidableEq, Repr

/-- `__fetch_input_data`: returns the reading when `read_state()`
succeeds with an `ExternalData` instance; any exception, and any result
that is not an `ExternalData` subclass (turned into an
`AssertionError` and caught by the same broad handler), yields `None`. -/
def fetch_input_data {α : Type} (source : ReadOutcome α) : Option α :=
  match source with
  | .ok d => some d
  | .wrongType => none
  | .raised => none

/-- Python `int()` conversion of a rational: truncation toward zero. -/
def py_int (q : ℚ) : ℤ :=
  q.num.tdiv (q.den : ℤ)

/-- `read_production_data(config, last_hash, last_state)`: fetches the
energy and carbon readings, derives `energy` / `is_meter_down` /
`co2_saved` / `is_co2_down`, attaches `previous_hash = last_hash`.
`last_state['last_meter_read']` is passed as `last_meter_read`. -/
def read_production_data (energy_source : ReadOutcome EnergyData)
    (carbon_source : ReadOutcome CarbonEmissionData)
    (last_hash : String) (last_meter_read : ℚ) : ProductionFileData :=
  let raw_energy := fetch_input_data energy_source
  let raw_carbon_emitted := fetch_input_data carbon_source
  let energy : ℚ :=
    match raw_energy with
    | some r => if r.device.is_accumulated then r.energy else r.energy + last_meter_read
    | none => 0
  let is_meter_down : Bool :=
    match raw_energy with
    | some _ => false
    | none => true
  let co2_saved : ℤ :=
    match raw_carbon_emitted with
    | some c => py_int (energy * c.accumulated_co2 * 10 ^ 3)
    | none => 0
  let is_co2_down : Bool :=
    match raw_carbon_emitted with
    | some _ => false
    | none => true
  { raw_energy := raw_energy
    raw_carbon_emitted := raw_carbon_emitted
    produced := some
      { energy := energy
        is_meter_down := is_meter_down
        previous_hash := last_hash
        co2_saved := co2_saved
        is_co2_down := is_co2_down } }

/-- `read_consumption_data(config, last_hash, last_state)`: same energy
accumulation as production, no carbon accounting. -/
def read_consumption_data (energy_source : ReadOutcome EnergyData)
    (last_hash : String) (last_meter_read : ℚ) : ConsumptionFileData :=
  let raw_energy := fetch_input_data energy_source
  let energy : ℚ :=
    match raw_energy with
    | some r => if r.device.is_accumulated then r.energy else r.energy + last_meter_read
    | none => 0
  let is_meter_down : Bool :=
    match raw_energy with
    | some _ => false
    | none => true
  { raw_energy := raw_energy
    consumed := some
      { energy := energy
        previous_hash := last_hash
        is_meter_down := is_meter_down } }

/-! ## Hash address: `hashlib.sha1` digest, base-58 encoded, `Qm` prefixed -/

/-- Rotate a 32-bit word left by `n` bits. -/
def rotl32 (n w : Nat) : Nat :=
  ((w % 2 ^ 32) * 2 ^ n) % 2 ^ 32 + (w % 2 ^ 32) / 2 ^ (32 - n)

/-- 32-bit bitwise complement. -/
def comp32 (w : Nat) : Nat := 2 ^ 32 - 1 - w % 2 ^ 32

/-- SHA-1 round function for round `i`. -/
def sha1_f (i b c d : Nat) : Nat :=
  if i < 20 then (b &&& c) ||| (comp32 b &&& d)
  else if i < 40 then b ^^^ c ^^^ d
  else if i < 60 then (b &&& c) ||| (b &&& d) ||| (c &&& d)
  else b ^^^ c ^^^ d

/-- SHA-1 round constant for round `i`. -/
def sha1_k (i : Nat) : Nat :=
  if i < 20 then 0x5A827999
  else if i < 40 then 0x6ED9EBA1
  else if i < 60 then 0x8F1BBCDC
  else 0xCA62C1D6

/-- Assemble big-endian 32-bit words from a 64-byte block. -/
def init_words : List Nat → List Nat
  | b0 :: b1 :: b2 :: b3 :: rest =>
      (((b0 * 256 + b1) * 256 + b2) * 256 + b3) :: init_words rest
  | _ => []

/-- Extend the 16 block words to the 80 SHA-1 schedule words. -/
def extend_words (ws : List Nat) : List Nat :=
  if h : 80 ≤ ws.length then ws
  else
    extend_words (ws ++ [rotl32 1
      (ws.getD (ws.length - 3) 0 ^^^ ws.getD (ws.length - 8) 0 ^^^
       ws.getD (ws.length - 14) 0 ^^^ ws.getD (ws.length - 16) 0)])
termination_by 80 - ws.length
decreasing_by
  simp only [List.length_append, List.length_cons, List.length_nil]
  omega

/-- One SHA-1 round applied to the five-register state, given the
round index and schedule word. -/
def sha1_round (st : Nat × Nat × Nat × Nat × Nat) (iw : Nat × Nat) :
    Nat × Nat × Nat × Nat × Nat :=
  let (a, b, c, d, e) := st
  let (i, w) := iw
  let temp := (rotl32 5 a + sha1_f i b c d + e + sha1_k i + w) % 2 ^ 32
  (temp, a, rotl32 30 b, c, d)

/-- SHA-1 compression of one 64-byte block. -/
def process_block (st : Nat × Nat × Nat × Nat × Nat) (block : List Nat) :
    Nat × Nat × Nat × Nat × Nat :=
  let ws := extend_words (init_words block)
  let (h0, h1, h2, h3, h4) := st
  let (a, b, c, d, e) := ((List.range 80).zip ws).foldl sha1_round st
  ((h0 + a) % 2 ^ 32, (h1 + b) % 2 ^ 32, (h2 + c) % 2 ^ 32,
   (h3 + d) % 2 ^ 32, (h4 + e) % 2 ^ 32)

/-- Split a (padded) message into 64-byte blocks. -/
def sha1_blocks (l : List Nat) : List (List Nat) :=
  if h : l = [] then [] else l.take 64 :: sha1_blocks (l.drop 64)
termination_by l.length
decreasing_by
  simp only [List.length_drop]
  have : 0 < l.length := List.length_pos.mpr h
  omega

/-- SHA-1 message padding: append `0x80`, zero bytes to 56 mod 64,
then the 64-bit big-endian bit length. -/
def sha1_pad (msg : List Nat) : List Nat :=
  let bits := 8 * msg.length
  msg ++ [128] ++ List.replicate ((119 - msg.length % 64) % 64) 0 ++
    [bits / 2 ^ 56 % 256, bits / 2 ^ 48 % 256, bits / 2 ^ 40 % 256,
     bits / 2 ^ 32 % 256, bits / 2 ^ 24 % 256, bits / 2 ^ 16 % 256,
     bits / 2 ^ 8 % 256, bits % 256]

/-- The five 32-bit SHA-1 state words of a message's digest. -/
def sha1_words (msg : List Nat) : Nat × Nat × Nat × Nat × Nat :=
  (sha1_blocks (sha1_pad msg)).foldl process_block
    (0x67452301, 0xEFCDAB89, 0x98BADCFE, 0x10325476, 0xC3D2E1F0)

/-- Big-endian bytes of a 32-bit word. -/
def word_bytes (w : Nat) : List Nat :=
  [w / 2 ^ 24 % 256, w / 2 ^ 16 % 256, w / 2 ^ 8 % 256, w % 256]

/-- `hashlib.sha1(...).digest()`: the 20-byte SHA-1 digest. -/
def sha1 (msg : List Nat) : List Nat :=
  match sha1_words msg with
  | (h0, h1, h2, h3, h4) =>
      word_bytes h0 ++ word_bytes h1 ++ word_bytes h2 ++
        word_bytes h3 ++ word_bytes h4

/-- The base-58 alphabet (Bitcoin alphabet). -/
def b58_alphabet : List Char :=
  "123456789ABCDEFGHJKLMNPQRSTUVWXYZabcdefghijkmnopqrstuvwxyz".toList

/-- Big-endian natural-number value of a byte string. -/
def nat_of_bytes (bs : List Nat) : Nat :=
  bs.foldl (fun acc b => acc * 256 + b) 0

/-- Modelled from the spec: `data_access.py` imports `core.base58`,
which is repository code not under `src/`.  The spec says the digest
is encoded "using a base-58 alphabet"; this is the standard base-58
encoding of a byte string — each leading zero byte maps to `'1'`, the
remainder is the base-58 numeral of the big-endian value. -/
def b58encode (bs : List Nat) : String :=
  String.mk (List.replicate (bs.takeWhile (· == 0)).length '1' ++
    ((Nat.digits 58 (nat_of_bytes bs)).map
      (fun d => b58_alphabet.getD d '1')).reverse)

/-- The hash-address computation of `get_last_hash` over the bytes of
the head's file: `'Qm' + base58.b58encode(hashlib.sha1(bytes).digest())`. -/
def hash_address (b : List Nat) : String :=
  "Qm" ++ b58encode (sha1 b)

/-! ## `DiskStorage` -/

/-- On-disk content of the store file, as seen by `pickle.load`: a
valid pickle of the head (possibly `None`), a zero-length/truncated
file (`pickle.load` raises `EOFError`), or otherwise corrupt bytes
(`pickle.load` raises `pickle.UnpicklingError`, not an `EOFError`). -/
inductive PickleFile where
  | valid (v : Option ChainLink)
  | truncated
  | corrupt
deriving Repr

/-- The state of a `DiskStorage` object together with the disk it
touches: `memory` is `self.__memory` (the in-memory head), `store_file`
the content at `self.chain_file` (`none` when the file is absent), and
`files` the payload files (name to bytes, newest first). -/
structure DiskStorage where
  chain_file : String
  path : String
  memory : Option ChainLink
  store_file : Option PickleFile
  files : List (String × List Nat)
deriving Repr

/-- External conditions for one call: whether the payload-file write
(`open`/`json.dump` in `__save_file`) and the store-file write
(`open`/`pickle.dump` in `__save_memory`) raise an `OSError`. -/
structure Env where
  payload_write_fails : Bool
  store_write_fails : Bool
deriving DecidableEq, Repr

/-- `DiskStorage.__init__(chain_file_name, path_to_files)`: when the
store file is absent the head starts empty; `pickle.load` raising
`EOFError` (zero-length/truncated file) is caught and the head starts
empty; any other deserialization failure is not caught and
propagates. -/
def DiskStorage.init (chain_file_name path_to_files : String)
    (store_file : Option PickleFile) (files : List (String × List Nat)) :
    Except PyError DiskStorage :=
  let cf := path_to_files ++ chain_file_name
  match store_file with
  | none => .ok ⟨cf, path_to_files, none, none, files⟩
  | some (.valid v) => .ok ⟨cf, path_to_files, v, some (.valid v), files⟩
  | some .truncated => .ok ⟨cf, path_to_files, none, some .truncated, files⟩
  | some .corrupt => .error .unpicklingError

/-- `DiskStorage.__save_memory`: `pickle.dump(self.__memory, open(self.chain_file, 'wb'))`. -/
def DiskStorage.save_memory (env : Env) (s : DiskStorage) :
    Except PyError DiskStorage :=
  if env.store_write_fails then .error .ioError
  else .ok { s with store_file := some (.valid s.memory) }

/-- `DiskStorage.__chain_append`: sets `self.__memory = chain_link`
first, then calls `__save_memory()`; when the write raises, the
exception propagates but the assignment has already happened.  Returns
the post state together with the outcome. -/
def DiskStorage.chain_append (env : Env) (s : DiskStorage)
    (chain_link : Option ChainLink) : DiskStorage × Except PyError Unit :=
  let s1 := { s with memory := chain_link }
  match s1.save_memory env with
  | .ok s2 => (s2, .ok ())
  | .error e => (s1, .error e)

/-- The `chain` property setter: `raise AttributeError` for any
non-`None` value, otherwise `__chain_append(chain_link)`. -/
def DiskStorage.chain_set (env : Env) (s : DiskStorage)
    (chain_link : Option ChainLink) : DiskStorage × Except PyError Unit :=
  match chain_link with
  | some _ => (s, .error .attributeError)
  | none => s.chain_append env none

/-- Zero-pad a number to two digits (`strftime` field). -/
def pad2 (n : Nat) : String :=
  if n < 10 then "0" ++ toString n else toString n

/-- Zero-pad a year to four digits (`strftime` `%Y`). -/
def pad4 (n : Nat) : String :=
  if n < 10 then "000" ++ toString n
  else if n < 100 then "00" ++ toString n
  else if n < 1000 then "0" ++ toString n
  else toString n

/-- `datetime.datetime.now().strftime('%Y-%m-%d-%H:%M:%S')`. -/
def format_timestamp (t : Timestamp) : String :=
  pad4 t.year ++ "-" ++ pad2 t.month ++ "-" ++ pad2 t.day ++ "-" ++
    pad2 t.hour ++ ":" ++ pad2 t.minute ++ ":" ++ pad2 t.second

/-- The name `__save_file` gives the payload file: the `production/`
subdirectory when the payload is a `ProductionFileData`, else
`consumption/`, then the timestamp mask `%Y-%m-%d-%H:%M:%S.json`. -/
def file_name_for (path : String) (data : LocalFileData) (now : Timestamp) :
    String :=
  (match data with
   | .production _ => path ++ "production/"
   | .consumption _ => path ++ "consumption/") ++
    format_timestamp now ++ ".json"

/-- `DiskStorage.__save_file`: serializes the payload
(`json.dump(data.to_dict(), file)`, abstracted by `encode`) into the
timestamp-named file and returns the file name.  A failing write
raises. -/
def DiskStorage.save_file (env : Env) (encode : LocalFileData → List Nat)
    (now : Timestamp) (s : DiskStorage) (data : LocalFileData) :
    DiskStorage × Except PyError String :=
  if env.payload_write_fails then (s, .error .ioError)
  else
    let name := file_name_for s.path data now
    ({ s with files := (name, encode data) :: s.files }, .ok name)

/-- `DiskStorage.add_to_chain(data)`: `__save_file`, build the
`ChainFile` and the new `ChainLink` whose `last_link` is the current
head, `__chain_append` (which persists), one more `__save_memory()`,
then return the file name.  Returns the post state with the outcome;
a raised exception propagates with the state as mutated so far. -/
def DiskStorage.add_to_chain (env : Env) (encode : LocalFileData → List Nat)
    (now : Timestamp) (s : DiskStorage) (data : LocalFileData) :
    DiskStorage × Except PyError String :=
  match s.save_file env encode now data with
  | (s1, .ok data_file_name) =>
    let chain_data : ChainFile := ⟨data_file_name, now⟩
    let new_link : ChainLink := .mk chain_data s1.memory
    match s1.chain_append env (some new_link) with
    | (s2, .ok _) =>
      match s2.save_memory env with
      | .ok s3 => (s3, .ok data_file_name)
      | .error e => (s2, .error e)
    | (s2, .error e) => (s2, .error e)
  | (s1, .error e) => (s1, .error e)

/-- Look a file's bytes up on disk (first match, newest first). -/
def lookup_file (files : List (String × List Nat)) (name : String) :
    Option (List Nat) :=
  match files with
  | [] => none
  | (n, b) :: rest => if n = name then some b else lookup_file rest name

/-- `DiskStorage.get_last_hash`: `'0x0'` when the chain is empty,
otherwise the hash address of the bytes of the head's file; a missing
file makes `open` raise. -/
def DiskStorage.get_last_hash (s : DiskStorage) : Except PyError String :=
  match s.memory with
  | some link =>
    match lookup_file s.files link.data.file with
    | some b => .ok (hash_address b)
    | none => .error .ioError
  | none => .ok "0x0"

/-! ## Concrete instances used in closed statements -/

/-- A concrete timestamp, 2017-01-02 03:04:05. -/
def ts0 : Timestamp := ⟨2017, 1, 2, 3, 4, 5⟩

/-- A concrete timestamp one second later. -/
def ts1 : Timestamp := ⟨2017, 1, 2, 3, 4, 6⟩

/-- A trivial payload encoding (`to_dict`/`json.dump` abstraction). -/
def enc0 : LocalFileData → List Nat := fun _ => [0]

/-- Environment in which every write succeeds. -/
def env0 : Env := ⟨false, false⟩

/-- Environment in which the store-file write raises. -/
def envSW : Env := ⟨false, true⟩

/-- A freshly initialized storage with an empty chain at path `p/`. -/
def s0 : DiskStorage := ⟨"p/chain", "p/", none, none, []⟩

/-- An empty production payload. -/
def p0 : LocalFileData := .production ⟨none, none, none⟩

/-- A chain link whose file is on disk in `sC2`. -/
def link0 : ChainLink := .mk ⟨"p/production/f.json", ts0⟩ none

/-- A storage whose head is `link0` and whose disk holds its file. -/
def sC2 : DiskStorage :=
  ⟨"p/chain", "p/", some link0, some (.valid (some link0)),
    [("p/production/f.json", [1, 2])]⟩

/-- A self-accumulating energy reading of 1. -/
def e_acc1 : EnergyData := ⟨1, ⟨true⟩⟩

/-- A self-accumulating energy reading of 10. -/
def e_acc10 : EnergyData := ⟨10, ⟨true⟩⟩

/-- A non-self-accumulating (delta) energy reading of 5. -/
def e_delta5 : EnergyData := ⟨5, ⟨false⟩⟩

/-- A carbon reading with `accumulated_co2 = 0.0019`. -/
def c_19 : CarbonEmissionData := ⟨19 / 10000⟩

/-- A carbon reading with `accumulated_co2 = 0.002`. -/
def c_002 : CarbonEmissionData := ⟨2 / 1000⟩

/-! ## Theorems -/

/-- The SHA-1 digest always has 20 bytes (160 bits). -/
theorem sha1_length (msg : List Nat) : (sha1 msg).length = 20 := by
  rcases h : sha1_words msg with ⟨h0, h1, h2, h3, h4⟩
  simp [sha1, h, word_bytes]

/-- C2: `get_last_hash` returns the sentinel `"0x0"` on an empty
chain; on a non-empty chain it returns the two-character `"Qm"` prefix
followed by the base-58 encoding of the 20-byte (160-bit) SHA-1 digest
of the bytes of the file referenced by the head link. -/
theorem get_last_hash_spec (s : DiskStorage) :
    (s.memory = none → s.get_last_hash = .ok "0x0") ∧
    ∀ link b, s.memory = some link →
      lookup_file s.files link.data.file = some b →
      s.get_last_hash = .ok ("Qm" ++ b58encode (sha1 b)) ∧
      (sha1 b).length = 20 := by
  constructor
  · intro h
    simp [DiskStorage.get_last_hash, h]
  · intro link b h1 h2
    simp [DiskStorage.get_last_hash, h1, h2, hash_address]
    exact sha1_length b

/-- C2 witness: the empty storage `s0` yields `"0x0"`; the one-link
storage `sC2`, whose head file holds bytes `[1, 2]`, yields the
`Qm`-prefixed base-58 SHA-1 address. -/
theorem get_last_hash_spec_witness :
    s0.memory = none ∧ s0.get_last_hash = .ok "0x0" ∧
    sC2.memory = some link0 ∧
    lookup_file sC2.files link0.data.file = some [1, 2] ∧
    sC2.get_last_hash = .ok ("Qm" ++ b58encode (sha1 [1, 2])) ∧
    (sha1 [1, 2]).length = 20 :=
  ⟨rfl, (get_last_hash_spec s0).1 rfl, rfl, by decide,
   ((get_last_hash_spec sC2).2 link0 [1, 2] rfl (by decide)).1,
   ((get_last_hash_spec sC2).2 link0 [1, 2] rfl (by decide)).2⟩

/-- C9: the hash-address computation is a pure function of the input
bytes — equal inputs always yield the same address string. -/
theorem hash_address_deterministic (b1 b2 : List Nat) (h : b1 = b2) :
    hash_address b1 = hash_address b2 := by
  rw [h]

/-- C9 witness at a concrete byte string. -/
theorem hash_address_deterministic_witness :
    [0, 255] = [0, 255] ∧ hash_address [0, 255] = hash_address [0, 255] :=
  ⟨rfl, hash_address_deterministic [0, 255] [0, 255] rfl⟩

/-- C3 counterexample: with an obtained self-accumulating energy
reading of 1 and a carbon reading with `accumulated_co2 = 0.0019`, the
code computes `co2_saved = int(1 * 0.0019 * 1000) = 1` (truncation),
while the claimed `round(1 * 0.0019 * 1000) = round(1.9) = 2`. -/
theorem read_production_co2_is_not_round :
    (read_production_data (.ok e_acc1) (.ok c_19) "h" 0).produced.map
        ProducedChainData.co2_saved = some 1 ∧
    round ((1 : ℚ) * c_19.accumulated_co2 * 10 ^ 3) = 2 ∧
    (read_production_data (.ok e_acc1) (.ok c_19) "h" 0).produced.map
        ProducedChainData.co2_saved ≠
      some (round ((1 : ℚ) * c_19.accumulated_co2 * 10 ^ 3)) := by
  have h2 : round ((1 : ℚ) * c_19.accumulated_co2 * 10 ^ 3) = 2 := by
    norm_num [c_19, round_eq]
  have h1 : (read_production_data (.ok e_acc1) (.ok c_19) "h" 0).produced.map
      ProducedChainData.co2_saved = some 1 := by
    simp [read_production_data, fetch_input_data, e_acc1, c_19, py_int]
    norm_num
    decide
  refine ⟨h1, h2, ?_⟩
  rw [h1, h2]
  decide

/-- C3 (amended): when a carbon reading is obtained, `co2_saved` is the
Python `int()` truncation toward zero of
`energy * accumulated_co2 * 1000` and `is_co2_down` is false; when it
is absent, `co2_saved = 0` and `is_co2_down` is true; with energy 10
and `accumulated_co2 = 0.002` the result is 20. -/
theorem read_production_co2_spec (eo : ReadOutcome EnergyData)
    (co : ReadOutcome CarbonEmissionData) (lh : String) (lm : ℚ) :
    (∀ c, fetch_input_data co = some c →
      ∃ p, (read_production_data eo co lh lm).produced = some p ∧
        p.co2_saved = py_int (p.energy * c.accumulated_co2 * 10 ^ 3) ∧
        p.is_co2_down = false) ∧
    (fetch_input_data co = none →
      ∃ p, (read_production_data eo co lh lm).produced = some p ∧
        p.co2_saved = 0 ∧ p.is_co2_down = true) ∧
    (read_production_data (.ok e_acc10) (.ok c_002) lh lm).produced.map
        ProducedChainData.co2_saved = some 20 := by
  refine ⟨?_, ?_, ?_⟩
  · intro c hc
    cases co <;> simp_all [fetch_input_data] <;>
      exact ⟨_, rfl, rfl, rfl⟩
  · intro hc
    cases co <;> simp_all [fetch_input_data] <;>
      exact ⟨_, rfl, rfl, rfl⟩
  · simp [read_production_data, fetch_input_data, e_acc10, c_002, py_int]
    norm_num

/-- C3 witness: the first branch applied at the concrete readings of
the claim's example (energy 10, `accumulated_co2 = 0.002`). -/
theorem read_production_co2_spec_witness :
    fetch_input_data (ReadOutcome.ok c_002) = some c_002 ∧
    ∃ p, (read_production_data (.ok e_acc10) (.ok c_002) "h" 0).produced
        = some p ∧
      p.co2_saved = py_int (p.energy * c_002.accumulated_co2 * 10 ^ 3) ∧
      p.is_co2_down = false :=
  ⟨rfl, (read_production_co2_spec (.ok e_acc10) (.ok c_002) "h" 0).1 c_002 rfl⟩

/-- C4: for every obtained energy reading, both ingestion functions
set `energy` to the reading's value, add `last_meter_read` exactly when
the device is not self-accumulating, and mark the meter as up; a
non-self-accumulating delta of 5 with `last_meter_read = 12` yields
energy 17. -/
theorem energy_accumulation_spec (eo : ReadOutcome EnergyData)
    (co : ReadOutcome CarbonEmissionData) (lh : String) (lm : ℚ)
    (r : EnergyData) (h : fetch_input_data eo = some r) :
    (∃ p, (read_production_data eo co lh lm).produced = some p ∧
      p.energy = (if r.device.is_accumulated then r.energy
                  else r.energy + lm) ∧
      p.is_meter_down = false) ∧
    (∃ q, (read_consumption_data eo lh lm).consumed = some q ∧
      q.energy = (if r.device.is_accumulated then r.energy
                  else r.energy + lm) ∧
      q.is_meter_down = false) ∧
    (read_production_data (.ok e_delta5) co lh 12).produced.map
        ProducedChainData.energy = some 17 ∧
    (read_consumption_data (.ok e_delta5) lh 12).consumed.map
        ConsumedChainData.energy = some 17 := by
  cases eo <;> simp_all [fetch_input_data]
  refine ⟨⟨_, rfl, rfl, rfl⟩, ⟨_, rfl, rfl, rfl⟩, ?_, ?_⟩ <;>
    simp [read_production_data, read_consumption_data, fetch_input_data,
      e_delta5] <;> norm_num

/-- C4 witness: the theorem applied at the delta-5 reading with
`last_meter_read = 12`. -/
theorem energy_accumulation_spec_witness :
    fetch_input_data (ReadOutcome.ok e_delta5) = some e_delta5 ∧
    ∃ p, (read_production_data (.ok e_delta5) .raised "h" 12).produced
        = some p ∧
      p.energy = (if e_delta5.device.is_accumulated then e_delta5.energy
                  else e_delta5.energy + 12) ∧
      p.is_meter_down = false :=
  ⟨rfl, (energy_accumulation_spec (.ok e_delta5) .raised "h" 12 e_delta5
    rfl).1⟩

/-- C5: an energy source whose `read_state()` raises, or returns a
value that is not an `ExternalData`, is treated as an absent reading:
ingestion still returns a payload with `energy = 0`,
`is_meter_down = true` and `previous_hash` equal to the `last_hash`
argument. -/
theorem fetch_failure_graceful (eo : ReadOutcome EnergyData)
    (co : ReadOutcome CarbonEmissionData) (lh : String) (lm : ℚ)
    (h : eo = .wrongType ∨ eo = .raised) :
    fetch_input_data eo = none ∧
    (read_production_data eo co lh lm).raw_energy = none ∧
    ∃ p, (read_production_data eo co lh lm).produced = some p ∧
      p.energy = 0 ∧ p.is_meter_down = true ∧ p.previous_hash = lh := by
  rcases h with h | h <;> subst h <;>
    cases co <;>
      exact ⟨rfl, rfl, _, rfl, rfl, rfl, rfl⟩

/-- C5 witness: a raising energy source with a raising carbon source. -/
theorem fetch_failure_graceful_witness :
    ((ReadOutcome.raised : ReadOutcome EnergyData) = .wrongType ∨
      (ReadOutcome.raised : ReadOutcome EnergyData) = .raised) ∧
    fetch_input_data (ReadOutcome.raised : ReadOutcome EnergyData) = none ∧
    (read_production_data .raised .raised "h" 0).raw_energy = none ∧
    ∃ p, (read_production_data .raised .raised "h" 0).produced = some p ∧
      p.energy = 0 ∧ p.is_meter_down = true ∧ p.previous_hash = "h" :=
  ⟨Or.inr rfl, fetch_failure_graceful .raised .raised "h" 0 (Or.inr rfl)⟩

/-- C1: when the writes succeed, `add_to_chain` stores the encoded
payload under the timestamp-derived file name, makes the new head a
link whose data references that file and whose `last_link` is the
previous head, persists the updated chain to the store file, and
returns the file name; after appending `p1` and then `p2`, the head's
`last_link` is the link created for `p1`. -/
theorem add_to_chain_spec (env : Env) (encode : LocalFileData → List Nat)
    (now later : Timestamp) (s : DiskStorage) (p1 p2 : LocalFileData)
    (hp : env.payload_write_fails = false)
    (hs : env.store_write_fails = false) :
    (s.add_to_chain env encode now p1).2 =
      .ok (file_name_for s.path p1 now) ∧
    lookup_file (s.add_to_chain env encode now p1).1.files
        (file_name_for s.path p1 now) = some (encode p1) ∧
    (s.add_to_chain env encode now p1).1.memory =
      some (.mk ⟨file_name_for s.path p1 now, now⟩ s.memory) ∧
    (s.add_to_chain env encode now p1).1.store_file =
      some (.valid (some (.mk ⟨file_name_for s.path p1 now, now⟩
        s.memory))) ∧
    ((s.add_to_chain env encode now p1).1.add_to_chain env encode later
        p2).1.memory =
      some (.mk ⟨file_name_for s.path p2 later, later⟩
        (some (.mk ⟨file_name_for s.path p1 now, now⟩ s.memory))) := by
  simp [DiskStorage.add_to_chain, DiskStorage.save_file,
    DiskStorage.chain_append, DiskStorage.save_memory, hp, hs, lookup_file]

/-- C1 witness: two appends of the empty production payload to the
fresh storage `s0`. -/
theorem add_to_chain_spec_witness :
    env0.payload_write_fails = false ∧ env0.store_write_fails = false ∧
    (s0.add_to_chain env0 enc0 ts0 p0).2 =
      .ok (file_name_for s0.path p0 ts0) ∧
    ((s0.add_to_chain env0 enc0 ts0 p0).1.add_to_chain env0 enc0 ts1
        p0).1.memory =
      some (.mk ⟨file_name_for s0.path p0 ts1, ts1⟩
        (some (.mk ⟨file_name_for s0.path p0 ts0, ts0⟩ s0.memory))) := by
  have h := add_to_chain_spec env0 enc0 ts0 ts1 s0 p0 p0 rfl rfl
  exact ⟨rfl, rfl, h.1, h.2.2.2.2⟩

/-- C6 counterexample: a store file that exists but is corrupt in a way
that does not raise `EOFError` (an `UnpicklingError`) makes
initialization fail instead of yielding an empty chain. -/
theorem init_corrupt_store_raises :
    DiskStorage.init "chain" "p/" (some .corrupt) [] =
      .error .unpicklingError := rfl

/-- C6 (amended): an absent store file and a zero-length/truncated one
(`EOFError` from `pickle.load`) yield an empty chain; a valid pickle
restores its head; any other undeserializable content propagates the
deserialization error. -/
theorem disk_storage_init_spec (n p : String)
    (fs : List (String × List Nat)) (v : Option ChainLink) :
    DiskStorage.init n p none fs =
      .ok ⟨p ++ n, p, none, none, fs⟩ ∧
    DiskStorage.init n p (some .truncated) fs =
      .ok ⟨p ++ n, p, none, some .truncated, fs⟩ ∧
    DiskStorage.init n p (some (.valid v)) fs =
      .ok ⟨p ++ n, p, v, some (.valid v), fs⟩ ∧
    DiskStorage.init n p (some .corrupt) fs =
      .error .unpicklingError :=
  ⟨rfl, rfl, rfl, rfl⟩

/-- C7: when the store-file write raises during `add_to_chain`, the
error does propagate, but `__chain_append` has already assigned the new
link to `self.__memory`, so the in-memory head after the failed call is
the new link and not the head from before the call. -/
theorem add_to_chain_store_write_failure_advances_head :
    (s0.add_to_chain envSW enc0 ts0 p0).2 = .error .ioError ∧
    (s0.add_to_chain envSW enc0 ts0 p0).1.memory =
      some (.mk ⟨"p/production/2017-01-02-03:04:05.json", ts0⟩ none) ∧
    s0.memory = none ∧
    (s0.add_to_chain envSW enc0 ts0 p0).1.memory ≠ s0.memory := by
  have hname : file_name_for s0.path p0 ts0 =
      "p/production/2017-01-02-03:04:05.json" := by decide
  refine ⟨rfl, ?_, rfl, ?_⟩ <;>
    simp [DiskStorage.add_to_chain, DiskStorage.save_file,
      DiskStorage.chain_append, DiskStorage.save_memory, envSW, s0, p0,
      enc0, ← hname]

/-- C8: assigning any non-`None` value through the `chain` setter
raises `AttributeError` and leaves the storage unchanged. -/
theorem chain_set_rejects_nonempty (env : Env) (s : DiskStorage)
    (v : Option ChainLink) (h : v ≠ none) :
    s.chain_set env v = (s, .error .attributeError) := by
  cases v with
  | none => exact absurd rfl h
  | some l => rfl

/-- C8 witness: assigning `some link0` to the storage `sC2`. -/
theorem chain_set_rejects_nonempty_witness :
    (some link0 ≠ (none : Option ChainLink)) ∧
    sC2.chain_set env0 (some link0) = (sC2, .error .attributeError) :=
  ⟨by simp, chain_set_rejects_nonempty env0 sC2 (some link0) (by simp)⟩

/-- C10: assigning `None` through the `chain` setter is accepted: it
clears the in-memory head, overwrites the store file with the empty
chain, and a subsequent `get_last_hash` returns `"0x0"`. -/
theorem chain_set_none_clears (env : Env) (s : DiskStorage)
    (hs : env.store_write_fails = false) :
    s.chain_set env none =
      ({ s with memory := none, store_file := some (.valid none) },
        .ok ()) ∧
    DiskStorage.get_last_hash
      { s with memory := none, store_file := some (.valid none) } =
      .ok "0x0" := by
  constructor
  · simp [DiskStorage.chain_set, DiskStorage.chain_append,
      DiskStorage.save_memory, hs]
  · rfl

/-- C10 witness: clearing the one-link storage `sC2`. -/
theorem chain_set_none_clears_witness :
    env0.store_write_fails = false ∧
    sC2.chain_set env0 none =
      ({ sC2 with memory := none, store_file := some (.valid none) },
        .ok ()) ∧
    DiskStorage.get_last_hash
      { sC2 with memory := none, store_file := some (.valid none) } =
      .ok "0x0" :=
  ⟨rfl, (chain_set_none_clears env0 sC2 rfl).1,
    (chain_set_none_clears env0 sC2 rfl).2⟩

end Artik
